import Mathlib

/-!
Shallow embedding of the client-side state synchronization logic of
`frontend/src/routes/(app)/(third-party)/compliance-assessments/[id=uuid]/table-mode/+page.svelte`.

The component keeps an in-memory list of requirement assessments, mutates it
optimistically on user interaction, and dispatches fire-and-forget persistence
requests.  We model the mutable records as immutable Lean structures, each
event handler as a function from the old state to the new state together with
the list of dispatched persistence payloads, and a JavaScript `TypeError`
(property access on `undefined`/`null`) as `Option.none` / a missing result.
-/

namespace TableMode

/-- A requirement definition from `data.requirements` (reference data). -/
structure Requirement where
  id : String
  display_short : Option String
  name : Option String
  deriving Repr, DecidableEq

/-- A question inside an assessment's answer bundle. -/
structure Question where
  urn : String
  text : String
  qtype : String
  options : List String
  answer : Option String
  deriving Repr, DecidableEq

/-- The `answer` object of an assessment: an ordered list of questions. -/
structure AnswerBundle where
  questions : List Question
  deriving Repr, DecidableEq

/-- An evidence reference `{str, id}` held in an assessment's evidence list. -/
structure Evidence where
  id : String
  str : String
  deriving Repr, DecidableEq

/-- A requirement assessment record.  `display_short`/`name` are carried
because `title` may fall back to reading them off the assessment itself;
a JavaScript `undefined` property is `none`. -/
structure RequirementAssessment where
  id : String
  requirement : String
  status : String
  result : String
  answer : Option AnswerBundle
  observation : Option String
  observationBuffer : Option String
  evidences : List Evidence
  display_short : Option String
  name : Option String
  deriving Repr, DecidableEq

/-- The value stored under `[field]` in a persistence payload: either a
scalar (string or `null`) or the whole answer bundle object. -/
inductive FieldValue where
  | scalar : Option String → FieldValue
  | bundle : AnswerBundle → FieldValue
  deriving Repr, DecidableEq

/-- The JSON body `{ id: assessment.id, [field]: value }` of the
fire-and-forget `fetch` POST issued by `update`. -/
structure UpdatePayload where
  id : String
  field : String
  value : FieldValue
  deriving Repr, DecidableEq

/-- Replace the `answer` of the question at index `i`, leaving every other
question untouched (the effect of `questions[i].answer = value`). -/
def setAnswer : List Question → Nat → Option String → List Question
  | [], _, _ => []
  | q :: qs, 0, v => { q with answer := v } :: qs
  | q :: qs, n + 1, v => q :: setAnswer qs n v

/-- Embedding of `update(requirementAssessment, field, value, question)`.
Returns the post-call assessment and the dispatched payload, or `none` when
the original code would throw a `TypeError`: with a `question` supplied this
happens when `answer` is `null` (reading `.questions` of `null`) or when no
question's `urn` matches (`findIndex` returns `-1`, `questions[-1]` is
`undefined`, and assigning `.answer` on it throws). -/
def update (ra : RequirementAssessment) (field : String) (value : Option String)
    (question : Option Question) : Option (RequirementAssessment × UpdatePayload) :=
  match question with
  | none => some (ra, { id := ra.id, field := field, value := .scalar value })
  | some q =>
    match ra.answer with
    | none => none
    | some b =>
      match b.questions.findIdx? (fun qq => qq.urn = q.urn) with
      | none => none
      | some i =>
        let b' : AnswerBundle := ⟨setAnswer b.questions i value⟩
        some ({ ra with answer := some b' },
          { id := ra.id, field := field, value := .bundle b' })

/-- The "click again to deselect" reducer described by the spec:
`nextValue(current, clicked, defaultValue)`. -/
def nextValue {α : Type} [DecidableEq α] (current clicked dflt : α) : α :=
  if clicked = current then dflt else clicked

/-- The inline reducer of the status click handler:
`requirementAssessment.status === option.id ? 'to_do' : option.id`. -/
def statusNext (current optionId : String) : String :=
  if current = optionId then "to_do" else optionId

/-- The inline reducer of the result click handler:
`requirementAssessment.result === option.id ? 'not_assessed' : option.id`. -/
def resultNext (current optionId : String) : String :=
  if current = optionId then "not_assessed" else optionId

/-- The inline reducer of the unique-choice question click handler:
`question.answer === option ? null : option`. -/
def questionNext (answer : Option String) (option : String) : Option String :=
  if answer = some option then none else some option

/-- The status `on:click` handler: compute `newStatus`, assign it to the
assessment, then call `update`.  Returns the post-handler assessment and the
dispatched payload. -/
def statusClick (ra : RequirementAssessment) (optionId : String) :
    RequirementAssessment × Option UpdatePayload :=
  let newStatus := statusNext ra.status optionId
  let ra1 := { ra with status := newStatus }
  match update ra1 "status" (some newStatus) none with
  | some (ra2, p) => (ra2, some p)
  | none => (ra1, none)

/-- The result `on:click` handler: compute `newResult`, assign it, then call
`update`. -/
def resultClick (ra : RequirementAssessment) (optionId : String) :
    RequirementAssessment × Option UpdatePayload :=
  let newResult := resultNext ra.result optionId
  let ra1 := { ra with result := newResult }
  match update ra1 "result" (some newResult) none with
  | some (ra2, p) => (ra2, some p)
  | none => (ra1, none)

/-- JavaScript truthiness of an optional string property: `undefined`/`null`
and the empty string are falsy. -/
def truthyStr : Option String → Bool
  | none => false
  | some s => s ≠ ""

/-- The title fallback chain applied to whichever object was selected:
`requirement.display_short ? requirement.display_short : (requirement.name ?? '')`. -/
structure TitleSource where
  display_short : Option String
  name : Option String
  deriving Repr, DecidableEq

/-- Project the fields `title` reads off a requirement definition. -/
def Requirement.titleSource (r : Requirement) : TitleSource :=
  ⟨r.display_short, r.name⟩

/-- Project the fields `title` reads off a requirement assessment used as
fallback source. -/
def RequirementAssessment.titleSource (ra : RequirementAssessment) : TitleSource :=
  ⟨ra.display_short, ra.name⟩

/-- `requirement.display_short ? requirement.display_short : (requirement.name ?? '')`. -/
def titleOf (src : TitleSource) : String :=
  if truthyStr src.display_short then src.display_short.getD "" else src.name.getD ""

/-- `requirementHashmap[key]`: `Object.fromEntries` keeps the last entry for a
duplicated key, so lookup finds the last requirement with the given id. -/
def requirementHashmap (requirements : List Requirement) (key : String) :
    Option Requirement :=
  requirements.reverse.find? (fun r => r.id = key)

/-- Embedding of `title(requirementAssessment)`: resolve the requirement in
the hashmap, falling back (`??`) to the assessment itself, then apply the
display-name fallback chain. -/
def title (requirements : List Requirement) (ra : RequirementAssessment) : String :=
  match requirementHashmap requirements ra.requirement with
  | some r => titleOf r.titleSource
  | none => titleOf ra.titleSource

/-- The `createdEvidence` payload delivered by the creation modal flow:
`{ id, name, requirements: [assessmentId, ...] }`. -/
structure CreatedEvidence where
  id : String
  name : String
  requirements : List String
  deriving Repr, DecidableEq

/-- The component state the evidence-merge reactive block touches. -/
structure MergeState where
  requirements : List RequirementAssessment
  createdEvidence : Option CreatedEvidence
  addedEvidence : Nat
  deriving Repr, DecidableEq

/-- Append an evidence record to the evidence list of the assessment at
index `i` (the effect of `find(...).evidences.push(...)`). -/
def pushEvidenceAt : List RequirementAssessment → Nat → Evidence → List RequirementAssessment
  | [], _, _ => []
  | ra :: ras, 0, e => { ra with evidences := ra.evidences ++ [e] } :: ras
  | ra :: ras, n + 1, e => ra :: pushEvidenceAt ras n e

/-- Embedding of the reactive block
`$: if (createdEvidence && shallow) { ... }`.  When the guard is falsy the
block does not run.  When it runs, `find` returns the first assessment whose
id equals `createdEvidence.requirements[0]`; if there is none, `find` yields
`undefined` and `.evidences.push` throws a `TypeError`, modelled as `none`
(nothing is mutated, the slot is not cleared, the counter is untouched).
On success an `{str: name, id}` record is appended, the slot is cleared, and
`addedEvidence = +1` assigns the literal `1` to the counter. -/
def mergeCreatedEvidence (shallow : Bool) (st : MergeState) : Option MergeState :=
  match st.createdEvidence, shallow with
  | none, _ => some st
  | some _, false => some st
  | some ev, true =>
    match st.requirements.findIdx? (fun ra => some ra.id = ev.requirements.head?) with
    | none => none
    | some i =>
      some { requirements := pushEvidenceAt st.requirements i ⟨ev.id, ev.name⟩,
             createdEvidence := none,
             addedEvidence := 1 }

/-- The state mutation performed by `modalConfirmDelete(id, name)`: every
assessment's evidence list is filtered to drop records whose id equals the
deleted one. -/
def removeEvidence (ras : List RequirementAssessment) (eid : String) :
    List RequirementAssessment :=
  ras.map (fun ra => { ra with evidences := ra.evidences.filter (fun ev => ev.id ≠ eid) })

/-- The observation save button handler: `update(ra, 'observation',
ra.observation)` then `ra.observationBuffer = ra.observation`.  Returns the
new assessment and the dispatched payloads. -/
def observationSave (ra : RequirementAssessment) :
    RequirementAssessment × List UpdatePayload :=
  match update ra "observation" ra.observation none with
  | some (ra1, p) => ({ ra1 with observationBuffer := ra1.observation }, [p])
  | none => (ra, [])

/-- The observation cancel button handler:
`ra.observation = ra.observationBuffer`, with no network call. -/
def observationCancel (ra : RequirementAssessment) :
    RequirementAssessment × List UpdatePayload :=
  ({ ra with observation := ra.observationBuffer }, [])

/-- The render guard of the save/cancel affordance:
`requirementAssessment.observationBuffer !== requirementAssessment.observation`. -/
def showObservationAffordance (ra : RequirementAssessment) : Bool :=
  ra.observationBuffer ≠ ra.observation

/-- A concrete assessment used to evaluate the handlers on explicit inputs. -/
def raC1 : RequirementAssessment :=
  { id := "a1", requirement := "r1", status := "to_do", result := "not_assessed",
    answer := none, observation := none, observationBuffer := none,
    evidences := [], display_short := none, name := none }

/-- C1 counterexample: calling `update(a, 'status', 'done')` with no question
argument does not assign `a.status = 'done'` — the returned assessment still
has status `'to_do'`, so `update` itself performs no local assignment. -/
theorem C1_update_no_assign_counterexample :
    (update raC1 "status" (some "done") none).map (fun r => r.1.status) = some "to_do"
    ∧ "to_do" ≠ "done" := by
  exact ⟨rfl, by decide⟩

/-- C1 (amended): `update` with no question argument leaves the assessment
unchanged and only dispatches the payload; it is each call site (the status
and result click handlers) that assigns `a[f] = v` before invoking `update`,
so the caller observes `a[f] = v` synchronously and the assignment is in
place when the persistence request carrying the same value is dispatched. -/
theorem C1_callsite_assigns_before_dispatch :
    (∀ (ra : RequirementAssessment) (f : String) (v : Option String),
        update ra f v none = some (ra, ⟨ra.id, f, .scalar v⟩))
    ∧ (∀ (ra : RequirementAssessment) (opt : String),
        (statusClick ra opt).1.status = statusNext ra.status opt
        ∧ (statusClick ra opt).2 =
            some ⟨ra.id, "status", .scalar (some (statusNext ra.status opt))⟩)
    ∧ (∀ (ra : RequirementAssessment) (opt : String),
        (resultClick ra opt).1.result = resultNext ra.result opt
        ∧ (resultClick ra opt).2 =
            some ⟨ra.id, "result", .scalar (some (resultNext ra.result opt))⟩) := by
  exact ⟨fun ra f v => rfl, fun ra opt => ⟨rfl, rfl⟩, fun ra opt => ⟨rfl, rfl⟩⟩

/-- C3 counterexample: the reducer can return the default value although the
clicked value differs from the current one (clicked `'to_do'` while current
is `'done'`), so "returns defaultValue iff clicked equals current" fails; and
two clicks with the same value starting from a selected state where the
clicked value equals the current one do not end at the default. -/
theorem C3_iff_counterexample :
    (nextValue "done" "to_do" "to_do" = "to_do" ∧ ("to_do" : String) ≠ "done")
    ∧ nextValue (nextValue "done" "done" "to_do") "done" "to_do" ≠ "to_do" := by
  exact ⟨⟨by decide, by decide⟩, by decide⟩

/-- C3 (amended): `nextValue(current, clicked, default)` returns `default`
exactly when `clicked = current` or `clicked = default`; applying it twice
with the same clicked value yields `default` exactly when `clicked ≠ current`
or `clicked = default`; and the status, result and unique-choice click
handlers all compute their next value by this one pure reducer, with
defaults `'to_do'`, `'not_assessed'` and `null`. -/
theorem C3_nextValue_characterization :
    (∀ (α : Type) [DecidableEq α] (c k d : α),
        (nextValue c k d = d ↔ (k = c ∨ k = d))
        ∧ (nextValue (nextValue c k d) k d = d ↔ (¬k = c ∨ k = d)))
    ∧ (∀ c k, statusNext c k = nextValue c k "to_do")
    ∧ (∀ c k, resultNext c k = nextValue c k "not_assessed")
    ∧ (∀ (a : Option String) (o : String), questionNext a o = nextValue a (some o) none) := by
  refine ⟨?_, fun c k => ?_, fun c k => ?_, fun a o => ?_⟩
  · intro α _inst c k d
    by_cases hkc : k = c <;> by_cases hkd : k = d <;>
      simp [nextValue, hkc, hkd]
  · by_cases h : c = k
    · simp [statusNext, nextValue, h]
    · simp [statusNext, nextValue, h, Ne.symm h]
  · by_cases h : c = k
    · simp [resultNext, nextValue, h]
    · simp [resultNext, nextValue, h, Ne.symm h]
  · by_cases h : a = some o
    · simp [questionNext, nextValue, h]
    · simp [questionNext, nextValue, h, Ne.symm h]

/-- C9: the save handler restores `observationBuffer == observation`, the
cancel handler restores it as well, and the save/cancel affordance renders
exactly when the two fields diverge. -/
theorem C9_observation_buffer_invariant :
    ∀ ra : RequirementAssessment,
      (observationSave ra).1.observationBuffer = (observationSave ra).1.observation
      ∧ (observationCancel ra).1.observationBuffer = (observationCancel ra).1.observation
      ∧ (showObservationAffordance ra = true ↔ ra.observationBuffer ≠ ra.observation) := by
  intro ra
  refine ⟨rfl, rfl, ?_⟩
  simp [showObservationAffordance]

/-- C10: cancelling an observation edit dispatches no persistence request and
changes only the `observation` field (copied from `observationBuffer`), while
the save handler dispatches exactly one request carrying the observation. -/
theorem C10_cancel_is_local :
    ∀ ra : RequirementAssessment,
      (observationCancel ra).2 = []
      ∧ (observationCancel ra).1.observation = ra.observationBuffer
      ∧ (observationCancel ra).1.id = ra.id
      ∧ (observationCancel ra).1.requirement = ra.requirement
      ∧ (observationCancel ra).1.status = ra.status
      ∧ (observationCancel ra).1.result = ra.result
      ∧ (observationCancel ra).1.answer = ra.answer
      ∧ (observationCancel ra).1.observationBuffer = ra.observationBuffer
      ∧ (observationCancel ra).1.evidences = ra.evidences
      ∧ (observationCancel ra).1.display_short = ra.display_short
      ∧ (observationCancel ra).1.name = ra.name
      ∧ (observationSave ra).2 = [⟨ra.id, "observation", .scalar ra.observation⟩] := by
  intro ra
  exact ⟨rfl, rfl, rfl, rfl, rfl, rfl, rfl, rfl, rfl, rfl, rfl, rfl⟩

/-- An assessment with the given id, empty evidence list and no answers. -/
def raEmpty (i : String) : RequirementAssessment :=
  { id := i, requirement := i, status := "to_do", result := "not_assessed",
    answer := none, observation := none, observationBuffer := none,
    evidences := [], display_short := none, name := none }

/-- First creation-confirmation event: evidence `e9` for assessment `r2`. -/
def evC2a : CreatedEvidence := ⟨"e9", "Policy.pdf", ["r2"]⟩

/-- Second creation-confirmation event: evidence `e10` for assessment `r1`. -/
def evC2b : CreatedEvidence := ⟨"e10", "Scan.pdf", ["r1"]⟩

/-- Initial merge state: two assessments, pending event `e9`, counter `0`. -/
def stC2 : MergeState :=
  { requirements := [raEmpty "r1", raEmpty "r2"],
    createdEvidence := some evC2a,
    addedEvidence := 0 }

/-- C2: the merge block appends the `{str, id}` record to the matching
assessment, leaves the other untouched and clears the pending slot, but
`addedEvidence = +1` assigns the literal `1` instead of incrementing: after a
first successful merge the counter is `1`, and after a second successful
merge it is still `1`, not `2`, so the counter is not incremented once per
merge as the reactive re-render scheme requires. -/
theorem C2_counter_set_not_incremented :
    ((mergeCreatedEvidence true stC2).map (fun st1 => st1.addedEvidence) = some 1)
    ∧ ((mergeCreatedEvidence true stC2).map
        (fun st1 => (st1.requirements.map (fun ra => ra.evidences), st1.createdEvidence))
        = some ([[], [⟨"e9", "Policy.pdf"⟩]], none))
    ∧ ((mergeCreatedEvidence true stC2).bind (fun st1 =>
        mergeCreatedEvidence true { st1 with createdEvidence := some evC2b })).map
        (fun st2 => st2.addedEvidence) = some 1
    ∧ (1 : Nat) ≠ 2 := by
  exact ⟨rfl, rfl, rfl, by decide⟩

/-- Creation-confirmation event whose first requirement id matches nothing. -/
def evC4 : CreatedEvidence := ⟨"e1", "Doc.pdf", ["rX"]⟩

/-- Merge state holding the unmatched pending event of `evC4`. -/
def stC4 : MergeState :=
  { requirements := [raEmpty "r1"], createdEvidence := some evC4, addedEvidence := 0 }

/-- C4 counterexample: a creation-confirmation event whose `requirements[0]`
matches no record is not a silent no-op — `find` yields `undefined` and
`.evidences.push` throws a `TypeError` (modelled by `none`), instead of
returning the unchanged state. -/
theorem C4_merge_miss_counterexample :
    mergeCreatedEvidence true stC4 = none ∧ some stC4 ≠ none := by
  exact ⟨rfl, by simp⟩

/-- C4 (amended): when no record's id equals the event's first requirement
id, the merge block throws a `TypeError` while dereferencing the failed
lookup; execution aborts before any mutation, so no evidence list changes,
the pending slot is not cleared and the counter is untouched, but the miss is
an error, not a silent no-op. -/
theorem C4_merge_miss_throws :
    ∀ (st : MergeState) (ev : CreatedEvidence),
      st.createdEvidence = some ev →
      (∀ ra ∈ st.requirements, some ra.id ≠ ev.requirements.head?) →
      mergeCreatedEvidence true st = none := by
  intro st ev hev hmiss
  have h0 : st.requirements.findIdx? (fun ra => some ra.id = ev.requirements.head?)
      = none := by
    rw [List.findIdx?_eq_none_iff]
    intro ra hra
    simpa using hmiss ra hra
  simp [mergeCreatedEvidence, hev, h0]

/-- Witness for the amended C4 theorem at the concrete unmatched event. -/
theorem C4_merge_miss_throws_witness :
    stC4.createdEvidence = some evC4
    ∧ (∀ ra ∈ stC4.requirements, some ra.id ≠ evC4.requirements.head?)
    ∧ mergeCreatedEvidence true stC4 = none := by
  exact ⟨rfl, by decide, C4_merge_miss_throws stC4 evC4 rfl (by decide)⟩

/-- An assessment whose answer bundle holds a single question `urn:q1`. -/
def raC5 : RequirementAssessment :=
  { id := "a5", requirement := "r5", status := "to_do", result := "not_assessed",
    answer := some ⟨[⟨"urn:q1", "Q1?", "text", [], none⟩]⟩,
    observation := none, observationBuffer := none,
    evidences := [], display_short := none, name := none }

/-- A question whose urn appears nowhere in `raC5`'s bundle. -/
def qMissC5 : Question := ⟨"urn:missing", "Q?", "text", [], none⟩

/-- C5 counterexample: the state-sync operations are not total — `update`
with a question whose urn matches no entry of the answer bundle runs
`questions[-1].answer = value` on `undefined` and throws a `TypeError`
(modelled by `none`). -/
theorem C5_totality_counterexample :
    update raC5 "answer" (some "X") (some qMissC5) = none := by
  rfl

/-- C5 (amended): `update` without a question and the evidence removal and
title derivation are total, but `update` with a question succeeds exactly
when the bundle exists and contains the urn, and the evidence merge succeeds
exactly when the pending event is absent or its first requirement id matches
some record; on the complementary inputs they throw `TypeError`s. -/
theorem C5_error_characterization :
    (∀ (ra : RequirementAssessment) (f : String) (v : Option String),
        (update ra f v none).isSome = true)
    ∧ (∀ (ra : RequirementAssessment) (f : String) (v : Option String) (q : Question),
        (update ra f v (some q)).isSome = true ↔
          ∃ b, ra.answer = some b ∧ ∃ qq ∈ b.questions, qq.urn = q.urn)
    ∧ (∀ st : MergeState,
        (mergeCreatedEvidence true st).isSome = true ↔
          (st.createdEvidence = none ∨
            ∃ ev, st.createdEvidence = some ev ∧
              ∃ ra ∈ st.requirements, some ra.id = ev.requirements.head?)) := by
  refine ⟨fun ra f v => rfl, fun ra f v q => ?_, fun st => ?_⟩
  · cases han : ra.answer with
    | none => simp [update, han]
    | some b =>
      have key : (b.questions.findIdx? (fun qq => qq.urn = q.urn)).isSome = true
          ↔ ∃ qq ∈ b.questions, qq.urn = q.urn := by
        rw [List.findIdx?_isSome, List.any_eq_true]
        simp
      cases hidx : b.questions.findIdx? (fun qq => qq.urn = q.urn) with
      | none =>
        rw [hidx] at key
        simp only [update, han, hidx]
        simpa using key
      | some i =>
        rw [hidx] at key
        simp only [update, han, hidx]
        simpa using key
  · cases hev : st.createdEvidence with
    | none => simp [mergeCreatedEvidence, hev]
    | some ev =>
      have key : (st.requirements.findIdx?
            (fun ra => some ra.id = ev.requirements.head?)).isSome = true
          ↔ ∃ ra ∈ st.requirements, some ra.id = ev.requirements.head? := by
        rw [List.findIdx?_isSome, List.any_eq_true]
        simp
      cases hidx : st.requirements.findIdx?
          (fun ra => some ra.id = ev.requirements.head?) with
      | none =>
        rw [hidx] at key
        simp only [mergeCreatedEvidence, hev, hidx]
        simpa using key
      | some i =>
        rw [hidx] at key
        simp only [mergeCreatedEvidence, hev, hidx]
        simpa using key

/-- C6: removing an evidence id rewrites each assessment in place (same id,
same position) so that its evidence list keeps exactly the records with a
different id, as an order-preserving sublist of the original list. -/
theorem C6_removeEvidence_spec :
    ∀ (ras : List RequirementAssessment) (eid : String),
      List.Forall₂ (fun ra ra2 =>
          ra2.id = ra.id
          ∧ ra2.evidences.Sublist ra.evidences
          ∧ (∀ ev : Evidence, ev ∈ ra2.evidences ↔ (ev ∈ ra.evidences ∧ ev.id ≠ eid)))
        ras (removeEvidence ras eid) := by
  intro ras eid
  induction ras with
  | nil => exact List.Forall₂.nil
  | cons ra ras ih =>
    simp only [removeEvidence, List.map_cons] at *
    refine List.Forall₂.cons ⟨rfl, List.filter_sublist _, ?_⟩ ih
    intro ev
    simp [List.mem_filter]

/-- `setAnswer` preserves the length of the question list. -/
theorem setAnswer_length (qs : List Question) (i : Nat) (v : Option String) :
    (setAnswer qs i v).length = qs.length := by
  induction qs generalizing i with
  | nil => rfl
  | cons q qs ih =>
    cases i with
    | zero => simp [setAnswer]
    | succ n => simp [setAnswer, ih]

/-- `setAnswer` leaves every index other than the written one unchanged. -/
theorem setAnswer_getElem?_ne (qs : List Question) (i : Nat) (v : Option String)
    (j : Nat) (h : j ≠ i) : (setAnswer qs i v)[j]? = qs[j]? := by
  induction qs generalizing i j with
  | nil => rfl
  | cons q qs ih =>
    cases i with
    | zero =>
      cases j with
      | zero => exact absurd rfl h
      | succ m => simp [setAnswer]
    | succ n =>
      cases j with
      | zero => simp [setAnswer]
      | succ m =>
        simp only [setAnswer, List.getElem?_cons_succ]
        exact ih n m (fun hh => h (by rw [hh]))

/-- `setAnswer` replaces only the `answer` field of the question at the
written index. -/
theorem setAnswer_getElem?_eq (qs : List Question) (i : Nat) (v : Option String)
    (q : Question) (h : qs[i]? = some q) :
    (setAnswer qs i v)[i]? = some { q with answer := v } := by
  induction qs generalizing i with
  | nil => simp at h
  | cons q0 qs ih =>
    cases i with
    | zero =>
      simp only [List.getElem?_cons_zero, Option.some.injEq] at h
      simp [setAnswer, h]
    | succ n =>
      simp only [List.getElem?_cons_succ] at h
      simp only [setAnswer, List.getElem?_cons_succ]
      exact ih n h

/-- C7: updating a question answer through `update` succeeds when the urn is
found at index `i` of the bundle, rewrites only that question's `answer`
field (all other questions and all other assessment fields unchanged), and
the dispatched payload carries the entire updated bundle, not the scalar. -/
theorem C7_update_question_spec :
    ∀ (ra : RequirementAssessment) (f : String) (v : Option String) (q : Question)
      (b : AnswerBundle) (i : Nat),
      ra.answer = some b →
      b.questions.findIdx? (fun qq => qq.urn = q.urn) = some i →
      ∃ (b2 : AnswerBundle) (qi : Question),
        update ra f v (some q) = some
          ({ ra with answer := some b2 },
           { id := ra.id, field := f, value := .bundle b2 })
        ∧ b.questions[i]? = some qi
        ∧ qi.urn = q.urn
        ∧ b2.questions[i]? = some { qi with answer := v }
        ∧ (∀ j : Nat, j ≠ i → b2.questions[j]? = b.questions[j]?)
        ∧ b2.questions.length = b.questions.length := by
  intro ra f v q b i hb hidx
  obtain ⟨hlt, hp, -⟩ := List.findIdx?_eq_some_iff_getElem.mp hidx
  refine ⟨⟨setAnswer b.questions i v⟩, b.questions[i], ?_, ?_, ?_, ?_, ?_, ?_⟩
  · simp [update, hb, hidx]
  · simp [List.getElem?_eq_getElem hlt]
  · simpa using hp
  · exact setAnswer_getElem?_eq _ _ _ _ (by simp [List.getElem?_eq_getElem hlt])
  · intro j hj
    exact setAnswer_getElem?_ne _ _ _ _ hj
  · exact setAnswer_length _ _ _

/-- Question 0 of the concrete three-question bundle. -/
def qW0 : Question := ⟨"urn:q0", "Q0?", "text", [], some "a0"⟩

/-- Question 1 of the concrete three-question bundle. -/
def qW1 : Question := ⟨"urn:q1", "Q1?", "text", [], some "a1"⟩

/-- Question 2 of the concrete three-question bundle, the one being answered. -/
def qW2 : Question := ⟨"urn:q2", "Q2?", "text", [], none⟩

/-- The concrete three-question answer bundle. -/
def bC7 : AnswerBundle := ⟨[qW0, qW1, qW2]⟩

/-- An assessment carrying the concrete three-question bundle. -/
def raC7 : RequirementAssessment :=
  { id := "a7", requirement := "r7", status := "to_do", result := "not_assessed",
    answer := some bC7, observation := none, observationBuffer := none,
    evidences := [], display_short := none, name := none }

/-- Witness for C7 at the concrete bundle: answering the question whose urn
matches index 2. -/
theorem C7_update_question_spec_witness :
    raC7.answer = some bC7
    ∧ bC7.questions.findIdx? (fun qq => qq.urn = qW2.urn) = some 2
    ∧ ∃ (b2 : AnswerBundle) (qi : Question),
        update raC7 "answer" (some "X") (some qW2) = some
          ({ raC7 with answer := some b2 },
           { id := raC7.id, field := "answer", value := .bundle b2 })
        ∧ bC7.questions[2]? = some qi
        ∧ qi.urn = qW2.urn
        ∧ b2.questions[2]? = some { qi with answer := some "X" }
        ∧ (∀ j : Nat, j ≠ 2 → b2.questions[j]? = bC7.questions[j]?)
        ∧ b2.questions.length = bC7.questions.length := by
  exact ⟨rfl, by decide,
    C7_update_question_spec raC7 "answer" (some "X") qW2 bC7 2 rfl (by decide)⟩

/-- C8: title derivation uses the indexed definition when the assessment's
requirement id resolves and the assessment itself otherwise, and on either
source returns the short display name when set and non-empty, else the long
name when present, else the empty string — always a string value, with no
error case. -/
theorem C8_title_fallback_chain :
    ∀ (reqs : List Requirement) (ra : RequirementAssessment),
      ((∃ r : Requirement, requirementHashmap reqs ra.requirement = some r
          ∧ title reqs ra = titleOf r.titleSource)
        ∨ (requirementHashmap reqs ra.requirement = none
          ∧ title reqs ra = titleOf ra.titleSource))
      ∧ (∀ src : TitleSource,
          (∀ s : String, src.display_short = some s → s ≠ "" → titleOf src = s)
          ∧ (truthyStr src.display_short = false →
              ∀ n : String, src.name = some n → titleOf src = n)
          ∧ (truthyStr src.display_short = false → src.name = none →
              titleOf src = "")) := by
  intro reqs ra
  constructor
  · cases h : requirementHashmap reqs ra.requirement with
    | none => exact Or.inr ⟨rfl, by simp [title, h]⟩
    | some r => exact Or.inl ⟨r, rfl, by simp [title, h]⟩
  · intro src
    refine ⟨?_, ?_, ?_⟩
    · intro s hs hne
      simp [titleOf, truthyStr, hs, hne]
    · intro hf n hn
      simp [titleOf, hf, hn]
    · intro hf hn
      simp [titleOf, hf, hn]

/-- Witness for C8: the three concrete cases of the fallback chain. -/
theorem C8_title_fallback_chain_witness :
    titleOf ⟨some "Short", some "Long"⟩ = "Short"
    ∧ titleOf ⟨none, some "Long"⟩ = "Long"
    ∧ titleOf ⟨none, none⟩ = "" := by
  refine ⟨?_, ?_, ?_⟩
  · exact ((C8_title_fallback_chain [] (raEmpty "x")).2 ⟨some "Short", some "Long"⟩).1
      "Short" rfl (by decide)
  · exact ((C8_title_fallback_chain [] (raEmpty "x")).2 ⟨none, some "Long"⟩).2.1
      (by decide) "Long" rfl
  · exact ((C8_title_fallback_chain [] (raEmpty "x")).2 ⟨none, none⟩).2.2
      (by decide) rfl

/-- Witness for C1 at a concrete assessment and clicked option. -/
theorem C1_callsite_assigns_before_dispatch_witness :
    (statusClick raC1 "done").1.status = statusNext raC1.status "done" :=
  (C1_callsite_assigns_before_dispatch.2.1 raC1 "done").1

/-- Witness for C3 at a concrete status toggle. -/
theorem C3_nextValue_characterization_witness :
    statusNext "to_do" "done" = nextValue "to_do" "done" "to_do" :=
  C3_nextValue_characterization.2.1 "to_do" "done"

/-- Witness for C5 at a concrete no-question update. -/
theorem C5_error_characterization_witness :
    (update raC5 "observation" none none).isSome = true :=
  C5_error_characterization.1 raC5 "observation" none

/-- The assessment `r1` of the removal scenario, holding `e1` and `e2`. -/
def raR1 : RequirementAssessment :=
  { raEmpty "r1" with evidences := [⟨"e1", "E1"⟩, ⟨"e2", "E2"⟩] }

/-- The assessment `r2` of the removal scenario, holding `e1`. -/
def raR2 : RequirementAssessment :=
  { raEmpty "r2" with evidences := [⟨"e1", "E1"⟩] }

/-- Witness for C6 at the two-assessment removal scenario. -/
theorem C6_removeEvidence_spec_witness :
    List.Forall₂ (fun ra ra2 =>
        ra2.id = ra.id
        ∧ ra2.evidences.Sublist ra.evidences
        ∧ (∀ ev : Evidence, ev ∈ ra2.evidences ↔ (ev ∈ ra.evidences ∧ ev.id ≠ "e1")))
      [raR1, raR2] (removeEvidence [raR1, raR2] "e1") :=
  C6_removeEvidence_spec [raR1, raR2] "e1"

/-- Witness for C9 at a concrete assessment. -/
theorem C9_observation_buffer_invariant_witness :
    showObservationAffordance (raEmpty "w9") = true
    ↔ (raEmpty "w9").observationBuffer ≠ (raEmpty "w9").observation :=
  (C9_observation_buffer_invariant (raEmpty "w9")).2.2

/-- Witness for C10 at a concrete assessment. -/
theorem C10_cancel_is_local_witness :
    (observationCancel (raEmpty "w10")).2 = [] :=
  (C10_cancel_is_local (raEmpty "w10")).1

end TableMode
